import Mathlib

/-!
# MiniCRM — verification of the coordination-layer specification

Shallow embedding of the MiniCRM repository's coordination layer:
the resilient HTTP client (`src/libs/sdk/src/http-client.ts`), the
notification consumer pipeline
(`src/apps/notification-service/src/entities/notification.entity.ts`),
the user-service write path (`src/apps/user-service/src/services/user.service.ts`),
the lead-service write path (`src/apps/lead-service/src/services/lead.service.ts`)
and the gateway dynamic router (`src/apps/api-gateway/src/app.module.ts`).

Effectful TypeScript is embedded as explicit state passing: the repository a
service writes to becomes a list of records threaded through the function, the
outcome of an external side effect (HTTP attempt, email channel, broker
publish) becomes an explicit `Except` parameter, and thrown exceptions become
`Except.error` results.
-/

namespace MiniCRM

/-! ## Resilient HTTP client — `src/libs/sdk/src/http-client.ts` -/

/-- `HttpClientConfig` with the constructor's defaults applied
(`timeout: 5000`, `maxRetries: 3`, `retryDelay: 1000`). -/
structure HttpClientConfig where
  baseURL : String
  timeout : Nat := 5000
  maxRetries : Nat := 3
  retryDelay : Nat := 1000
  deriving Repr, DecidableEq

/-- The part of an axios error that `shouldRetry` inspects: `error.response`
(present iff a response was received, carrying its HTTP status) and
`error.code`, plus `error.message` used for logging and for the caller. -/
structure AxiosError where
  response : Option Nat
  code : Option String
  message : String
  deriving Repr, DecidableEq

/-- `shouldRetry` (http-client.ts lines 100-108): retry when no response was
received, or the received status is in [500, 600), or the error code is
`ECONNRESET` or `ETIMEDOUT`. -/
def shouldRetry (error : AxiosError) : Bool :=
  error.response.isNone ||
  (match error.response with
   | some status => decide (500 ≤ status) && decide (status < 600)
   | none => false) ||
  error.code == some "ECONNRESET" ||
  error.code == some "ETIMEDOUT"

/-- Observable outcome of `retryRequest`: the final result, the number of
invocations of `requestFn`, and the list of waits performed (one entry per
`delay(retryDelay)` call, in order). -/
structure RetryResult (T : Type) where
  outcome : Except AxiosError T
  attemptsMade : Nat
  delays : List Nat
  deriving Repr

/-- `retryRequest` (http-client.ts lines 80-98). The effectful `requestFn` is
embedded as a function from the attempt's `retryCount` to that attempt's
outcome. On failure, a retry happens iff `retryCount < maxRetries` and
`shouldRetry error`; otherwise the error is rethrown unchanged. -/
def retryRequest {T : Type} (cfg : HttpClientConfig)
    (requestFn : Nat → Except AxiosError T) (retryCount : Nat) : RetryResult T :=
  match requestFn retryCount with
  | .ok v => ⟨.ok v, 1, []⟩
  | .error e =>
    if h : retryCount < cfg.maxRetries ∧ shouldRetry e = true then
      let rest := retryRequest cfg requestFn (retryCount + 1)
      ⟨rest.outcome, rest.attemptsMade + 1, cfg.retryDelay :: rest.delays⟩
    else
      ⟨.error e, 1, []⟩
termination_by cfg.maxRetries - retryCount
decreasing_by
  have := h.1
  omega

/-- Unfolding: a successful attempt returns at once, with one attempt and no
waits. -/
theorem retryRequest_ok {T : Type} (cfg : HttpClientConfig)
    (requestFn : Nat → Except AxiosError T) (retryCount : Nat) (v : T)
    (h : requestFn retryCount = .ok v) :
    retryRequest cfg requestFn retryCount = ⟨.ok v, 1, []⟩ := by
  unfold retryRequest
  rw [h]

/-- Unfolding: a failed attempt that is not retried (budget exhausted or not a
retryable error) rethrows the error unchanged, with one attempt and no waits. -/
theorem retryRequest_error_stop {T : Type} (cfg : HttpClientConfig)
    (requestFn : Nat → Except AxiosError T) (retryCount : Nat) (e : AxiosError)
    (h : requestFn retryCount = .error e)
    (hs : ¬(retryCount < cfg.maxRetries ∧ shouldRetry e = true)) :
    retryRequest cfg requestFn retryCount = ⟨.error e, 1, []⟩ := by
  unfold retryRequest
  rw [h]
  simp only [dif_neg hs]

/-- Unfolding: a failed attempt that is retried waits once and recurses with
`retryCount + 1`. -/
theorem retryRequest_error_step {T : Type} (cfg : HttpClientConfig)
    (requestFn : Nat → Except AxiosError T) (retryCount : Nat) (e : AxiosError)
    (h : requestFn retryCount = .error e)
    (hlt : retryCount < cfg.maxRetries) (hs : shouldRetry e = true) :
    retryRequest cfg requestFn retryCount =
      ⟨(retryRequest cfg requestFn (retryCount + 1)).outcome,
       (retryRequest cfg requestFn (retryCount + 1)).attemptsMade + 1,
       cfg.retryDelay :: (retryRequest cfg requestFn (retryCount + 1)).delays⟩ := by
  conv_lhs => unfold retryRequest
  rw [h]
  simp only [dif_pos (And.intro hlt hs)]

/-- When every attempt fails retryably, the loop starting at `retryCount`
makes `maxRetries - retryCount + 1` attempts, waits `retryDelay` between each,
and rethrows the last attempt's error. -/
theorem retryRequest_all_fail {T : Type} (cfg : HttpClientConfig)
    (requestFn : Nat → Except AxiosError T) (err : Nat → AxiosError)
    (hfail : ∀ i, requestFn i = .error (err i))
    (hretry : ∀ i, shouldRetry (err i) = true) :
    ∀ n retryCount, cfg.maxRetries - retryCount = n → retryCount ≤ cfg.maxRetries →
      retryRequest cfg requestFn retryCount =
        ⟨.error (err cfg.maxRetries), n + 1, List.replicate n cfg.retryDelay⟩ := by
  intro n
  induction n with
  | zero =>
    intro retryCount hsub hle
    have hrc : retryCount = cfg.maxRetries := by omega
    rw [retryRequest_error_stop cfg requestFn retryCount (err retryCount)
      (hfail retryCount) (fun hcon => absurd hcon.1 (by omega))]
    rw [hrc]
    simp
  | succ n ih =>
    intro retryCount hsub hle
    have hlt : retryCount < cfg.maxRetries := by omega
    rw [retryRequest_error_step cfg requestFn retryCount (err retryCount)
      (hfail retryCount) hlt (hretry retryCount)]
    rw [ih (retryCount + 1) (by omega) (by omega)]
    simp [List.replicate_succ]

/-- When the first `n` attempts starting at `retryCount` fail retryably and the
next one succeeds within the budget, the loop returns that success after `n + 1`
attempts and `n` waits. -/
theorem retryRequest_ok_after {T : Type} (cfg : HttpClientConfig)
    (requestFn : Nat → Except AxiosError T) (v : T) :
    ∀ n retryCount, retryCount + n ≤ cfg.maxRetries →
      (∀ i, retryCount ≤ i → i < retryCount + n →
        ∃ e, requestFn i = .error e ∧ shouldRetry e = true) →
      requestFn (retryCount + n) = .ok v →
      retryRequest cfg requestFn retryCount =
        ⟨.ok v, n + 1, List.replicate n cfg.retryDelay⟩ := by
  intro n
  induction n with
  | zero =>
    intro retryCount _ _ hok
    exact retryRequest_ok cfg requestFn retryCount v (by simpa using hok)
  | succ n ih =>
    intro retryCount hle hfail hok
    obtain ⟨e, he, hr⟩ := hfail retryCount le_rfl (by omega)
    rw [retryRequest_error_step cfg requestFn retryCount e he (by omega) hr]
    have hok' : requestFn (retryCount + 1 + n) = .ok v := by
      rw [show retryCount + 1 + n = retryCount + (n + 1) by omega]
      exact hok
    rw [ih (retryCount + 1) (by omega)
      (fun i h1 h2 => hfail i (by omega) (by omega)) hok']
    simp [List.replicate_succ]

/-- An axios error with a received 404 response but connection-error code
`ETIMEDOUT`, as `shouldRetry` would see it. -/
def etimedout404 : AxiosError :=
  { response := some 404, code := some "ETIMEDOUT", message := "timeout of 5000ms exceeded" }

/-- A received 503 server-error response. -/
def e503 : AxiosError :=
  { response := some 503, code := none, message := "Request failed with status code 503" }

/-- A received 404 client-error response with no connection-error code. -/
def e404 : AxiosError :=
  { response := some 404, code := none, message := "Request failed with status code 404" }

/-- C1 counterexample: an attempt that fails with a *received* 404 response —
status outside 500-599 — is nonetheless retried, because its `code` field is
`ETIMEDOUT` and `shouldRetry` also retries on that code: with the default
config, four attempts are made instead of the claimed single attempt. -/
theorem c1_counterexample :
    etimedout404.response = some 404 ∧
    ¬(500 ≤ 404 ∧ 404 < 600) ∧
    shouldRetry etimedout404 = true ∧
    (retryRequest { baseURL := "http://user-service:3001" }
      (fun _ => (.error etimedout404 : Except AxiosError Unit)) 0).attemptsMade = 4 := by
  refine ⟨rfl, by omega, rfl, ?_⟩
  simp [retryRequest, shouldRetry, etimedout404]

/-- C1 (amended): a failure with a received response whose status is outside
500-599 *and* whose error code is neither `ECONNRESET` nor `ETIMEDOUT` fails
immediately with that error after exactly one attempt; more than one attempt
happens only when the first failure satisfies `shouldRetry` (no response, or
5xx status, or a connection-error code). -/
theorem c1_no_retry_client_error {T : Type} (cfg : HttpClientConfig)
    (requestFn : Nat → Except AxiosError T) :
    (∀ e status, requestFn 0 = .error e → e.response = some status →
      ¬(500 ≤ status ∧ status < 600) →
      e.code ≠ some "ECONNRESET" → e.code ≠ some "ETIMEDOUT" →
      retryRequest cfg requestFn 0 = ⟨.error e, 1, []⟩) ∧
    (1 < (retryRequest cfg requestFn 0).attemptsMade →
      ∃ e, requestFn 0 = .error e ∧ shouldRetry e = true) := by
  constructor
  · intro e status he hresp hstatus hcode1 hcode2
    have hs : shouldRetry e = false := by
      simp only [shouldRetry, hresp, Option.isNone_some, Bool.false_or]
      simp only [Bool.or_eq_false_iff]
      refine ⟨⟨?_, ?_⟩, ?_⟩
      · simp only [Bool.and_eq_false_iff, decide_eq_false_iff_not]
        omega
      · simpa using hcode1
      · simpa using hcode2
    exact retryRequest_error_stop cfg requestFn 0 e he (by simp [hs])
  · intro hgt
    cases hf : requestFn 0 with
    | ok v =>
      rw [retryRequest_ok cfg requestFn 0 v hf] at hgt
      simp at hgt
    | error e =>
      refine ⟨e, rfl, ?_⟩
      by_contra hns
      have hs : shouldRetry e = false := by
        cases h : shouldRetry e
        · rfl
        · exact absurd h hns
      rw [retryRequest_error_stop cfg requestFn 0 e hf (by simp [hs])] at hgt
      simp at hgt

/-- C1 witness: with the default config, a plain 404 failure on the first
attempt is not retried — one attempt, no waits, the 404 error rethrown. -/
theorem c1_no_retry_client_error_witness :
    retryRequest { baseURL := "http://user-service:3001" }
      (fun _ => (.error e404 : Except AxiosError Unit)) 0 = ⟨.error e404, 1, []⟩ :=
  (c1_no_retry_client_error { baseURL := "http://user-service:3001" }
    (fun _ => (.error e404 : Except AxiosError Unit))).1 e404 404 rfl rfl
    (by omega) (by simp [e404]) (by simp [e404])

/-- C2: when every attempt fails with a retryable failure, exactly
`maxRetries + 1` attempts are made, with a fixed `retryDelay` wait between
consecutive attempts, and the call rejects with the final attempt's error
value unchanged. -/
theorem c2_exhausted_retries {T : Type} (cfg : HttpClientConfig)
    (requestFn : Nat → Except AxiosError T) (err : Nat → AxiosError)
    (hfail : ∀ i, requestFn i = .error (err i))
    (hretry : ∀ i, shouldRetry (err i) = true) :
    retryRequest cfg requestFn 0 =
      ⟨.error (err cfg.maxRetries), cfg.maxRetries + 1,
       List.replicate cfg.maxRetries cfg.retryDelay⟩ :=
  retryRequest_all_fail cfg requestFn err hfail hretry cfg.maxRetries 0
    (by omega) (by omega)

/-- C2 witness: with the default config and every attempt failing with a 503
response, the call makes 4 attempts, waits 1000 ms three times, and rejects
with the 503 error itself. -/
theorem c2_exhausted_retries_witness :
    retryRequest { baseURL := "http://user-service:3001" }
      (fun _ => (.error e503 : Except AxiosError Unit)) 0 =
      ⟨.error e503, 4, [1000, 1000, 1000]⟩ := by
  have h := c2_exhausted_retries { baseURL := "http://user-service:3001" }
    (fun _ => (.error e503 : Except AxiosError Unit)) (fun _ => e503)
    (fun _ => rfl) (fun _ => rfl)
  simpa using h

/-- C3: when the first `n ≤ maxRetries` attempts fail with server-error
(500-599) responses and the next attempt succeeds, the call returns that
success after exactly `n + 1` attempts and `n` waits of `retryDelay`. -/
theorem c3_success_after_server_errors {T : Type} (cfg : HttpClientConfig)
    (requestFn : Nat → Except AxiosError T) (n : Nat) (v : T)
    (hn : n ≤ cfg.maxRetries)
    (hfail : ∀ i, i < n → ∃ e status, requestFn i = .error e ∧
      e.response = some status ∧ 500 ≤ status ∧ status < 600)
    (hok : requestFn n = .ok v) :
    retryRequest cfg requestFn 0 = ⟨.ok v, n + 1, List.replicate n cfg.retryDelay⟩ := by
  refine retryRequest_ok_after cfg requestFn v n 0 (by omega) ?_ (by simpa using hok)
  intro i _ hi
  obtain ⟨e, status, he, hresp, h5, h6⟩ := hfail i (by omega)
  refine ⟨e, he, ?_⟩
  simp only [shouldRetry, hresp]
  have : (decide (500 ≤ status) && decide (status < 600)) = true := by
    simp [h5, h6]
  simp [this]

/-- C3 witness (the spec scenario): with `maxRetries = 3` and
`retryDelay = 1000`, a target that returns 503 three times and then succeeds
yields the success after exactly four attempts and three 1000 ms waits. -/
theorem c3_success_after_server_errors_witness :
    retryRequest { baseURL := "http://user-service:3001" }
      (fun i => if i < 3 then (.error e503 : Except AxiosError String) else .ok "body") 0 =
      ⟨.ok "body", 4, [1000, 1000, 1000]⟩ := by
  have h := c3_success_after_server_errors { baseURL := "http://user-service:3001" }
    (fun i => if i < 3 then (.error e503 : Except AxiosError String) else .ok "body")
    3 "body" (by decide)
    (fun i hi => ⟨e503, 503, by simp [hi], rfl, by omega, by omega⟩)
    (by simp)
  simpa using h

/-! ## Notification consumer pipeline —
`src/apps/notification-service/src/entities/notification.entity.ts` -/

/-- `UserCreatedEventDto`: the payload of a `user.created` event as consumed
by the notification service. -/
structure UserCreatedEventDto where
  userId : String
  email : String
  firstName : String
  lastName : String
  role : String
  timestamp : String
  deriving Repr, DecidableEq

/-- `NotificationType` (`libs/common/src/dto/notification.dto.ts`). -/
inductive NotificationType where
  | email
  | sms
  | push
  | inApp
  deriving Repr, DecidableEq

/-- `NotificationStatus` (`libs/common/src/dto/notification.dto.ts`). -/
inductive NotificationStatus where
  | pending
  | sent
  | failed
  deriving Repr, DecidableEq

/-- The fields of the `Notification` entity that `createNotificationRecord`
sets; `id`, `createdAt` and `updatedAt` are generated by the datastore and
`metadata`, `templateId`, `sentAt` are never set by the pipeline. -/
structure Notification where
  type : NotificationType
  title : String
  message : String
  recipientId : String
  status : NotificationStatus
  errorMessage : Option String
  deriving Repr, DecidableEq

/-- Characters matched by the JavaScript regex class `\s`: the ASCII
whitespace characters plus NBSP (U+00A0), Ogham space (U+1680), the Unicode
space separators U+2000-U+200A, line separator (U+2028), paragraph separator
(U+2029), narrow no-break space (U+202F), mathematical space (U+205F),
ideographic space (U+3000) and the BOM (U+FEFF). -/
def isSpaceChar (c : Char) : Bool :=
  c = ' ' || c = '\t' || c = '\n' || c = '\r' || c = '\x0b' || c = '\x0c' ||
  c = '\u00A0' || c = '\u1680' ||
  (decide (0x2000 ≤ c.toNat) && decide (c.toNat ≤ 0x200A)) ||
  c = '\u2028' || c = '\u2029' || c = '\u202F' || c = '\u205F' ||
  c = '\u3000' || c = '\uFEFF'

/-- Membership in the regex character class `[^\s@]`. -/
def okChar (c : Char) : Bool :=
  !(isSpaceChar c) && c ≠ '@'

/-- `isValidEmail` (notification.entity.ts lines 195-198): the regex
`/^[^\s@]+@[^\s@]+\.[^\s@]+$/` matches `email` iff it decomposes as
`local ++ "@" ++ rest` with `local` a nonempty run of `[^\s@]` characters and
`rest` a run of `[^\s@]` characters containing a `'.'` with at least one
character on each side. -/
def isValidEmail (email : String) : Bool :=
  let cs := email.toList
  (List.range cs.length).any (fun i =>
    cs.getD i ' ' == '@' &&
    decide (0 < i) && (cs.take i).all okChar &&
    (let rest := cs.drop (i + 1)
     rest.all okChar &&
     (List.range rest.length).any (fun j =>
        rest.getD j ' ' == '.' && decide (0 < j) && decide (j + 1 < rest.length))))

/-- `validateUserCreatedEvent` (notification.entity.ts lines 131-144): a
missing (empty, hence falsy) required field or a malformed email address makes
the pipeline throw; embedded as `Except.error` carrying the thrown message. -/
def validateUserCreatedEvent (event : UserCreatedEventDto) : Except String Unit :=
  if event.userId = "" || event.email = "" || event.firstName = "" ||
      event.lastName = "" || event.role = "" then
    .error "User creation event missing required fields"
  else if !(isValidEmail event.email) then
    .error ("Invalid email format: " ++ event.email)
  else
    .ok ()

/-- The notification record both branches of `processUserCreatedEvent`
construct: type `EMAIL`, the welcome title, the templated message referencing
the event's first name and role, and the event's `userId` as recipient. -/
def welcomeRecord (event : UserCreatedEventDto) (status : NotificationStatus)
    (errorMessage : Option String) : Notification :=
  { type := .email
    title := "Welcome to MiniCRM!"
    message := "Welcome " ++ event.firstName ++
      "! Your account has been created with role: " ++ event.role
    recipientId := event.userId
    status := status
    errorMessage := errorMessage }

/-- `createNotificationRecord` (notification.entity.ts lines 167-190):
`repository.create` followed by `repository.save` appends one fresh row to the
notifications table; no existing row is read or overwritten. -/
def createNotificationRecord (repo : List Notification) (record : Notification) :
    List Notification :=
  repo ++ [record]

/-- State threaded through `processUserCreatedEvent`: the persisted
notification rows, and the trace of `emailService.sendWelcomeEmail`
invocations (each recorded as the `(email, firstName, role)` arguments). -/
structure PipelineState where
  repo : List Notification
  emailCalls : List (String × String × String)
  deriving Repr, DecidableEq

/-- `processUserCreatedEvent` (notification.entity.ts lines 79-125). The
email channel's behaviour is the explicit `channel` parameter: its outcome is
consumed only if `sendWelcomeEmail` is actually invoked (which the state
records). The `try` block validates, sends the welcome email, then saves a
`SENT` record; the `catch` block saves a `FAILED` record carrying the thrown
message and then re-raises the original error. -/
def processUserCreatedEvent (channel : Except String Unit) (s : PipelineState)
    (event : UserCreatedEventDto) : PipelineState × Except String Unit :=
  match validateUserCreatedEvent event with
  | .error msg =>
    ({ s with repo := createNotificationRecord s.repo (welcomeRecord event .failed (some msg)) },
     .error msg)
  | .ok () =>
    let s1 := { s with emailCalls := s.emailCalls ++ [(event.email, event.firstName, event.role)] }
    match channel with
    | .error msg =>
      ({ s1 with repo := createNotificationRecord s1.repo (welcomeRecord event .failed (some msg)) },
       .error msg)
    | .ok () =>
      ({ s1 with repo := createNotificationRecord s1.repo (welcomeRecord event .sent none) },
       .ok ())

/-- The single record one invocation of `processUserCreatedEvent` appends,
as a function of the event and the channel outcome only. -/
def processedRecord (channel : Except String Unit) (event : UserCreatedEventDto) :
    Notification :=
  match validateUserCreatedEvent event with
  | .error msg => welcomeRecord event .failed (some msg)
  | .ok () =>
    match channel with
    | .error msg => welcomeRecord event .failed (some msg)
    | .ok () => welcomeRecord event .sent none

/-- Every invocation appends exactly the record `processedRecord channel event`
to the repository, independently of the previously stored records. -/
theorem processUserCreatedEvent_repo (channel : Except String Unit)
    (s : PipelineState) (event : UserCreatedEventDto) :
    (processUserCreatedEvent channel s event).1.repo =
      s.repo ++ [processedRecord channel event] := by
  unfold processUserCreatedEvent processedRecord createNotificationRecord
  cases validateUserCreatedEvent event with
  | error msg => rfl
  | ok u =>
    cases u
    cases channel with
    | error msg => rfl
    | ok u2 => cases u2; rfl

/-- Validation failures always carry a non-empty message: either the
missing-fields message or the invalid-email message. -/
theorem validate_error_ne_empty (event : UserCreatedEventDto) (m : String)
    (h : validateUserCreatedEvent event = .error m) : m ≠ "" := by
  unfold validateUserCreatedEvent at h
  split at h
  · cases h
    decide
  · split at h
    · cases h
      intro hemp
      have hlen := congrArg String.length hemp
      rw [String.length_append] at hlen
      have h22 : ("Invalid email format: ").length = 22 := rfl
      have h0 : ("" : String).length = 0 := rfl
      rw [h22, h0] at hlen
      omega
    · cases h

/-- C4: for every `user.created` event whose validation fails or whose
welcome-email side effect fails, exactly one `FAILED` notification record
carrying the failure's (non-empty) message is persisted, and the same failure
is re-raised to the caller; the returned state already holds the record
whenever the error is raised. -/
theorem c4_failure_recorded (channel : Except String Unit) (s : PipelineState)
    (event : UserCreatedEventDto)
    (h : validateUserCreatedEvent event ≠ .ok () ∨ channel ≠ .ok ())
    (hch : ∀ m, channel = .error m → m ≠ "") :
    ∃ msg, msg ≠ "" ∧
      (processUserCreatedEvent channel s event).2 = .error msg ∧
      (processUserCreatedEvent channel s event).1.repo =
        s.repo ++ [welcomeRecord event .failed (some msg)] := by
  cases hv : validateUserCreatedEvent event with
  | error msg =>
    refine ⟨msg, validate_error_ne_empty event msg hv, ?_, ?_⟩
    · simp [processUserCreatedEvent, hv]
    · simp [processUserCreatedEvent, hv, createNotificationRecord]
  | ok u =>
    cases u
    cases hc : channel with
    | ok u2 =>
      cases u2
      rcases h with h | h
      · exact absurd hv h
      · exact absurd hc h
    | error m =>
      refine ⟨m, hch m hc, ?_, ?_⟩
      · simp [processUserCreatedEvent, hv, hc]
      · simp [processUserCreatedEvent, hv, hc, createNotificationRecord]

/-- The invalid-email event of the spec scenario. -/
def evBadEmail : UserCreatedEventDto :=
  { userId := "u1", email := "not-an-email", firstName := "Jo", lastName := "Doe",
    role := "sales_rep", timestamp := "2023-01-01T00:00:00Z" }

/-- The valid event of the spec scenario. -/
def evOk : UserCreatedEventDto :=
  { userId := "u1", email := "a@b.com", firstName := "Jo", lastName := "Doe",
    role := "sales_rep", timestamp := "2023-01-01T00:00:00Z" }

/-- C4 witness: processing the invalid-email event with a healthy channel
appends one non-empty-message `FAILED` record and re-raises. -/
theorem c4_failure_recorded_witness :
    ∃ msg, msg ≠ "" ∧
      (processUserCreatedEvent (.ok ()) ⟨[], []⟩ evBadEmail).2 = .error msg ∧
      (processUserCreatedEvent (.ok ()) ⟨[], []⟩ evBadEmail).1.repo =
        [] ++ [welcomeRecord evBadEmail .failed (some msg)] :=
  c4_failure_recorded (.ok ()) ⟨[], []⟩ evBadEmail
    (Or.inl (by
      rw [show validateUserCreatedEvent evBadEmail =
        .error "Invalid email format: not-an-email" from rfl]
      simp))
    (fun m hm => by cases hm)

/-- C5: for every `user.created` event that passes validation, when the
welcome-email side effect succeeds, exactly one `SENT` record is persisted —
type `email`, recipient the event's `userId`, title "Welcome to MiniCRM!"
and the templated message referencing the event's `firstName` and `role` —
and the pipeline returns without error. -/
theorem c5_success_recorded (s : PipelineState) (event : UserCreatedEventDto)
    (hv : validateUserCreatedEvent event = .ok ()) :
    processUserCreatedEvent (.ok ()) s event =
      ({ repo := s.repo ++
          [{ type := .email
             title := "Welcome to MiniCRM!"
             message := "Welcome " ++ event.firstName ++
               "! Your account has been created with role: " ++ event.role
             recipientId := event.userId
             status := .sent
             errorMessage := none }],
         emailCalls := s.emailCalls ++ [(event.email, event.firstName, event.role)] },
       .ok ()) := by
  simp [processUserCreatedEvent, hv, createNotificationRecord, welcomeRecord]

/-- C5 witness (the spec scenario): the `{u1, a@b.com, Jo, …, sales_rep}`
event with a succeeding side effect yields exactly one `SENT` record with
title "Welcome to MiniCRM!" whose message mentions "Jo" and "sales_rep". -/
theorem c5_success_recorded_witness :
    processUserCreatedEvent (.ok ()) ⟨[], []⟩ evOk =
      ({ repo := [] ++
          [{ type := .email
             title := "Welcome to MiniCRM!"
             message := "Welcome " ++ evOk.firstName ++
               "! Your account has been created with role: " ++ evOk.role
             recipientId := evOk.userId
             status := .sent
             errorMessage := none }],
         emailCalls := [] ++ [(evOk.email, evOk.firstName, evOk.role)] },
       .ok ()) :=
  c5_success_recorded ⟨[], []⟩ evOk rfl

/-- C6: for every event with all required fields present but a syntactically
invalid email, validation short-circuits before the side effect: the email
channel is never invoked (the call trace is unchanged), and exactly one
`FAILED` record is persisted whose error detail cites the invalid email
format. -/
theorem c6_invalid_email_short_circuit (channel : Except String Unit)
    (s : PipelineState) (event : UserCreatedEventDto)
    (hfields : event.userId ≠ "" ∧ event.email ≠ "" ∧ event.firstName ≠ "" ∧
      event.lastName ≠ "" ∧ event.role ≠ "")
    (hbad : isValidEmail event.email = false) :
    processUserCreatedEvent channel s event =
      ({ repo := s.repo ++
          [welcomeRecord event .failed (some ("Invalid email format: " ++ event.email))],
         emailCalls := s.emailCalls },
       .error ("Invalid email format: " ++ event.email)) := by
  have hv : validateUserCreatedEvent event =
      .error ("Invalid email format: " ++ event.email) := by
    unfold validateUserCreatedEvent
    rw [if_neg, if_pos]
    · simp [hbad]
    · simp [hfields.1, hfields.2.1, hfields.2.2.1, hfields.2.2.2.1, hfields.2.2.2.2]
  simp [processUserCreatedEvent, hv, createNotificationRecord]

/-- C6 witness (the spec scenario): the `email: "not-an-email"` event fails
validation, the channel call trace stays empty, and the one `FAILED` record
cites the invalid email format. -/
theorem c6_invalid_email_short_circuit_witness :
    processUserCreatedEvent (.ok ()) ⟨[], []⟩ evBadEmail =
      ({ repo := [] ++
          [welcomeRecord evBadEmail .failed (some ("Invalid email format: " ++ evBadEmail.email))],
         emailCalls := [] },
       .error ("Invalid email format: " ++ evBadEmail.email)) :=
  c6_invalid_email_short_circuit (.ok ()) ⟨[], []⟩ evBadEmail
    (by refine ⟨?_, ?_, ?_, ?_, ?_⟩ <;> decide) (by decide)

/-- C9: processing the same event twice appends two records: each invocation
appends exactly one fresh record determined by the event and that
invocation's channel outcome alone, with no lookup of previously stored
records, so no deduplication occurs whatever the outcomes. -/
theorem c9_no_dedup (ch1 ch2 : Except String Unit) (s : PipelineState)
    (event : UserCreatedEventDto) :
    (processUserCreatedEvent ch1 s event).1.repo =
      s.repo ++ [processedRecord ch1 event] ∧
    (processUserCreatedEvent ch2 (processUserCreatedEvent ch1 s event).1 event).1.repo =
      s.repo ++ [processedRecord ch1 event] ++ [processedRecord ch2 event] ∧
    (processUserCreatedEvent ch2 (processUserCreatedEvent ch1 s event).1 event).1.repo.length =
      s.repo.length + 2 := by
  have h1 := processUserCreatedEvent_repo ch1 s event
  have h2 := processUserCreatedEvent_repo ch2 (processUserCreatedEvent ch1 s event).1 event
  refine ⟨h1, ?_, ?_⟩
  · rw [h2, h1]
  · rw [h2, h1]
    simp

/-! ## User-service write path —
`src/apps/user-service/src/services/user.service.ts` -/

/-- The `User` entity fields that `createUser` and `mapToResponseDto` use;
timestamps are kept as their ISO-string form. -/
structure User where
  id : String
  firstName : String
  lastName : String
  email : String
  password : String
  role : String
  isActive : Bool
  createdAt : String
  updatedAt : String
  deriving Repr, DecidableEq

/-- `CreateUserDto` (`libs/common/src/dto/user.dto.ts`). -/
structure CreateUserDto where
  firstName : String
  lastName : String
  email : String
  password : String
  role : String
  deriving Repr, DecidableEq

/-- `UserResponseDto` (`libs/common/src/dto/user.dto.ts`). -/
structure UserResponseDto where
  id : String
  firstName : String
  lastName : String
  email : String
  role : String
  isActive : Bool
  createdAt : String
  updatedAt : String
  deriving Repr, DecidableEq

/-- `UserCreatedEvent` (`kafka/kafka-config.ts`). -/
structure UserCreatedEvent where
  userId : String
  email : String
  firstName : String
  lastName : String
  role : String
  timestamp : String
  deriving Repr, DecidableEq

/-- The user-service datastore: the `users` table. -/
structure UserStore where
  users : List User
  deriving Repr, DecidableEq

/-- `mapToResponseDto` (user.service.ts lines 276-288). -/
def mapToResponseDto (user : User) : UserResponseDto :=
  { id := user.id
    firstName := user.firstName
    lastName := user.lastName
    email := user.email
    role := user.role
    isActive := user.isActive
    createdAt := user.createdAt
    updatedAt := user.updatedAt }

/-- `createUser` (user.service.ts lines 24-78). `savedUser` is the entity the
datastore returns for the created dto (id and timestamps generated there);
`now` is the emission timestamp; `publish` is the outcome of
`kafkaClient.emit`, wrapped by the source's try/catch which logs and swallows
a failure. Output: the updated store, the events that reached the broker, and
the value returned (or the exception thrown) to the caller. -/
def createUser (store : UserStore) (dto : CreateUserDto) (savedUser : User)
    (now : String) (publish : Except String Unit) :
    UserStore × List UserCreatedEvent × Except String UserResponseDto :=
  if store.users.any (fun u => u.email == dto.email) then
    (store, [], .error "User with this email already exists")
  else
    let store' : UserStore := ⟨store.users ++ [savedUser]⟩
    let event : UserCreatedEvent :=
      { userId := savedUser.id
        email := savedUser.email
        firstName := savedUser.firstName
        lastName := savedUser.lastName
        role := savedUser.role
        timestamp := now }
    match publish with
    | .ok () => (store', [event], .ok (mapToResponseDto savedUser))
    | .error _ => (store', [], .ok (mapToResponseDto savedUser))

/-- C7: when the local persistence of `createUser` succeeds (no email
conflict), a failure of the subsequent `user.created` publish does not fail
the operation: the committed write stays in the store, the failure is not
surfaced, the saved user's response DTO is still returned, and store and
returned value coincide with those of a run whose publish succeeds. -/
theorem c7_publish_failure_swallowed (store : UserStore) (dto : CreateUserDto)
    (savedUser : User) (now : String) (m : String)
    (hnew : store.users.any (fun u => u.email == dto.email) = false) :
    createUser store dto savedUser now (.error m) =
      (⟨store.users ++ [savedUser]⟩, [], .ok (mapToResponseDto savedUser)) ∧
    (createUser store dto savedUser now (.error m)).1 =
      (createUser store dto savedUser now (.ok ())).1 ∧
    (createUser store dto savedUser now (.error m)).2.2 =
      (createUser store dto savedUser now (.ok ())).2.2 := by
  refine ⟨?_, ?_, ?_⟩ <;> simp [createUser, hnew]

/-- A concrete saved user for the C7 witness. -/
def aliceUser : User :=
  { id := "11111111-1111-1111-1111-111111111111"
    firstName := "Alice", lastName := "Smith", email := "alice@example.com"
    password := "hashed", role := "sales_rep", isActive := true
    createdAt := "2023-01-01T00:00:00Z", updatedAt := "2023-01-01T00:00:00Z" }

/-- A concrete create dto for the C7 witness. -/
def aliceDto : CreateUserDto :=
  { firstName := "Alice", lastName := "Smith", email := "alice@example.com"
    password := "secret123", role := "sales_rep" }

/-- C7 witness: on an empty store, a failing publish still persists the user
and returns the response DTO. -/
theorem c7_publish_failure_swallowed_witness :
    createUser ⟨[]⟩ aliceDto aliceUser "2023-01-01T00:00:01Z" (.error "broker down") =
      (⟨[] ++ [aliceUser]⟩, [], .ok (mapToResponseDto aliceUser)) :=
  (c7_publish_failure_swallowed ⟨[]⟩ aliceDto aliceUser "2023-01-01T00:00:01Z"
    "broker down" rfl).1

/-! ## Lead-service write path —
`src/apps/lead-service/src/services/lead.service.ts` -/

/-- `LeadStatus` (`libs/common/src/dto/lead.dto.ts`). -/
inductive LeadStatus where
  | new
  | contacted
  | qualified
  | proposal
  | negotiation
  | closedWon
  | closedLost
  deriving Repr, DecidableEq

/-- `LeadSource` (`libs/common/src/dto/lead.dto.ts`). -/
inductive LeadSource where
  | website
  | referral
  | socialMedia
  | emailCampaign
  | phoneCall
  | other
  deriving Repr, DecidableEq

/-- The `Lead` entity (`lead.entity.ts`); nullable columns are `Option`s and
timestamps are kept as ISO strings. -/
structure Lead where
  id : String
  firstName : String
  lastName : String
  email : String
  phone : Option String
  company : Option String
  position : Option String
  notes : Option String
  status : LeadStatus
  source : LeadSource
  assignedUserId : Option String
  createdAt : String
  updatedAt : String
  deriving Repr, DecidableEq

/-- `UpdateLeadDto` (`libs/common/src/dto/lead.dto.ts`): every field optional
(`none` embeds an absent property). -/
structure UpdateLeadDto where
  id : Option String
  firstName : Option String
  lastName : Option String
  email : Option String
  phone : Option String
  company : Option String
  position : Option String
  notes : Option String
  status : Option LeadStatus
  source : Option LeadSource
  assignedUserId : Option String
  deriving Repr, DecidableEq

/-- One defined property of `Object.assign`'s source overwrites the target's
value; an absent property leaves it. -/
def overwrite {α : Type} (new old : Option α) : Option α :=
  match new with
  | some v => some v
  | none => old

/-- `Object.assign(lead, updateLeadDto)` (lead.service.ts line 82): every
property defined on the dto overwrites the entity's field. -/
def applyUpdate (lead : Lead) (dto : UpdateLeadDto) : Lead :=
  { id := dto.id.getD lead.id
    firstName := dto.firstName.getD lead.firstName
    lastName := dto.lastName.getD lead.lastName
    email := dto.email.getD lead.email
    phone := overwrite dto.phone lead.phone
    company := overwrite dto.company lead.company
    position := overwrite dto.position lead.position
    notes := overwrite dto.notes lead.notes
    status := dto.status.getD lead.status
    source := dto.source.getD lead.source
    assignedUserId := overwrite dto.assignedUserId lead.assignedUserId
    createdAt := lead.createdAt
    updatedAt := lead.updatedAt }

/-- The lead-service events published by the write operations the claims
cover. -/
inductive LeadEvent where
  | updated (leadId : String) (firstName lastName email : Option String)
      (status : Option LeadStatus) (timestamp : String)
  | statusChanged (leadId : String) (previousStatus newStatus : LeadStatus)
      (userId : String) (timestamp : String)
  | assigned (leadId : String) (previousUserId : Option String)
      (newUserId : String) (timestamp : String)
  deriving Repr, DecidableEq

/-- Whether an event is one of the two *derived* events of the spec. -/
def LeadEvent.isDerived : LeadEvent → Bool
  | .statusChanged .. => true
  | .assigned .. => true
  | .updated .. => false

/-- `updateLead` (lead.service.ts lines 70-127), from the point where the
lead has been found. Always publishes `lead.updated`; publishes
`lead.status_changed` only when the dto defines a status differing from the
previous one, and `lead.assigned` only when the dto defines a truthy (non-empty)
assignee differing from the previous one. -/
def updateLead (lead : Lead) (dto : UpdateLeadDto) (now : String) :
    Lead × List LeadEvent :=
  let previousStatus := lead.status
  let previousUserId := lead.assignedUserId
  let updatedLead := applyUpdate lead dto
  let events := [LeadEvent.updated updatedLead.id dto.firstName dto.lastName
    dto.email dto.status now]
  let events := events ++
    (match dto.status with
     | some st =>
       if st ≠ previousStatus then
         [LeadEvent.statusChanged updatedLead.id previousStatus st "system" now]
       else []
     | none => [])
  let events := events ++
    (match dto.assignedUserId with
     | some uid =>
       if uid ≠ "" ∧ some uid ≠ previousUserId then
         [LeadEvent.assigned updatedLead.id previousUserId uid now]
       else []
     | none => [])
  (updatedLead, events)

/-- `updateLeadStatus` (lead.service.ts lines 216-243), from the point where
the lead has been found: sets the status and publishes `lead.status_changed`
unconditionally. -/
def updateLeadStatus (lead : Lead) (status : LeadStatus) (now : String) :
    Lead × List LeadEvent :=
  let previousStatus := lead.status
  let updatedLead := { lead with status := status }
  (updatedLead,
   [LeadEvent.statusChanged updatedLead.id previousStatus status "system" now])

/-- `assignLead` (lead.service.ts lines 172-214), from the point where the
lead has been found: verifies the user through the user SDK (`userExists` is
that call's outcome), then sets the assignee and publishes `lead.assigned`
unconditionally. -/
def assignLead (lead : Lead) (userId : String) (userExists : Bool)
    (now : String) : Except String (Lead × List LeadEvent) :=
  if !userExists then
    .error "User not found"
  else
    let previousUserId := lead.assignedUserId
    let updatedLead := { lead with assignedUserId := some userId }
    .ok (updatedLead,
      [LeadEvent.assigned updatedLead.id previousUserId userId now])

/-- A concrete lead with status `new` assigned to `u-1`. -/
def leadW : Lead :=
  { id := "L1", firstName := "Lee", lastName := "Ng", email := "lee@x.com"
    phone := none, company := none, position := none, notes := none
    status := .new, source := .website, assignedUserId := some "u-1"
    createdAt := "2023-01-01T00:00:00Z", updatedAt := "2023-01-01T00:00:00Z" }

/-- C8 counterexample: a no-op status update through `updateLeadStatus` —
new status equal to the previous status — still emits a derived
`lead.status_changed` event, and a no-op re-assignment through `assignLead`
still emits a derived `lead.assigned` event. -/
theorem c8_counterexample :
    leadW.status = .new ∧
    (updateLeadStatus leadW .new "t").2 =
      [LeadEvent.statusChanged "L1" .new .new "system" "t"] ∧
    ((updateLeadStatus leadW .new "t").2.filter LeadEvent.isDerived ≠ []) ∧
    leadW.assignedUserId = some "u-1" ∧
    assignLead leadW "u-1" true "t" =
      .ok ({ leadW with assignedUserId := some "u-1" },
        [LeadEvent.assigned "L1" (some "u-1") "u-1" "t"]) := by
  refine ⟨rfl, rfl, ?_, rfl, rfl⟩
  decide

/-- The all-absent update dto. -/
def emptyUpdate : UpdateLeadDto :=
  { id := none, firstName := none, lastName := none, email := none
    phone := none, company := none, position := none, notes := none
    status := none, source := none, assignedUserId := none }

/-- C8 (amended): only `updateLead` guards its derived events on an actual
change — a dto whose status is absent or equal to the previous status and
whose assignee is absent, empty, or equal to the previous assignee yields no
derived event — while `updateLeadStatus` and `assignLead` (user found) emit
their derived event unconditionally, no-op updates included. -/
theorem c8_derived_events (lead : Lead) (dto : UpdateLeadDto)
    (status : LeadStatus) (userId : String) (now : String) :
    ((dto.status = none ∨ dto.status = some lead.status) →
     (dto.assignedUserId = none ∨ dto.assignedUserId = some "" ∨
       dto.assignedUserId = lead.assignedUserId) →
     (updateLead lead dto now).2.filter LeadEvent.isDerived = []) ∧
    (updateLeadStatus lead status now).2 =
      [LeadEvent.statusChanged lead.id lead.status status "system" now] ∧
    assignLead lead userId true now =
      .ok ({ lead with assignedUserId := some userId },
        [LeadEvent.assigned lead.id lead.assignedUserId userId now]) := by
  refine ⟨?_, rfl, rfl⟩
  intro hst hassign
  unfold updateLead
  rcases hst with hst | hst <;> rcases hassign with ha | ha | ha <;>
    simp [hst, ha, LeadEvent.isDerived] <;>
    (cases hla : lead.assignedUserId <;> simp [hla, LeadEvent.isDerived])

/-- C8 witness: a fully-absent dto on `leadW` yields no derived event from
`updateLead`. -/
theorem c8_derived_events_witness :
    (updateLead leadW emptyUpdate "t").2.filter LeadEvent.isDerived = [] :=
  (c8_derived_events leadW emptyUpdate .new "u-1" "t").1 (Or.inl rfl) (Or.inl rfl)

/-! ## Gateway dynamic router —
`src/apps/api-gateway/src/app.module.ts` (GatewayService) and
`src/apps/api-gateway/src/controllers/gateway.controller.ts` -/

/-- JavaScript `String.prototype.replace` with a string pattern and empty
replacement: deletes the *first* occurrence of the pattern, leaves the string
unchanged when the pattern does not occur. -/
def listReplaceFirst (cs pat : List Char) : List Char :=
  match (List.range (cs.length + 1)).find? (fun i => pat.isPrefixOf (cs.drop i)) with
  | some i => cs.take i ++ cs.drop (i + pat.length)
  | none => cs

/-- String form of `listReplaceFirst`. -/
def replaceFirst (s pat : String) : String :=
  ⟨listReplaceFirst s.toList pat.toList⟩

/-- JavaScript `String.prototype.startsWith`. -/
def strStartsWith (s pat : String) : Bool :=
  pat.toList.isPrefixOf s.toList

/-- JavaScript `String.prototype.includes`: substring containment. -/
def strIncludes (s pat : String) : Bool :=
  (List.range (s.toList.length + 1)).any (fun i => pat.toList.isPrefixOf (s.toList.drop i))

/-- A JavaScript object value as the gateway and the SDK build request
configs: a string, or an object given by its key-value fields. -/
inductive JsValue where
  | str (s : String)
  | obj (fields : List (String × JsValue))
  deriving Repr

/-- Property lookup on a `JsValue`. -/
def JsValue.get? : JsValue → String → Option JsValue
  | .obj fields, key => (fields.find? (fun p => p.1 == key)).map (fun p => p.2)
  | .str _, _ => none

/-- `config = authHeader ? { headers: { Authorization: authHeader } } :
undefined` (app.module.ts lines 109-110); an empty header string is falsy and
also yields `undefined`. -/
def gatewayConfig (authHeader : Option String) : Option JsValue :=
  match authHeader with
  | some a =>
    if a = "" then none
    else some (.obj [("headers", .obj [("Authorization", .str a)])])
  | none => none

/-- The axios request config `{ headers }` that `UserSdkService.getUserById`,
`getUserByEmail` and `getAllUsers` (unnamed SDK source, `user-sdk.service`)
build around their `headers?` parameter before handing it to
`HttpClient.get`: the parameter — whatever object the caller passed — becomes
the value of the config's `headers` key (absent when the parameter is
`undefined`). -/
def objWithHeaders (headers : Option JsValue) : JsValue :=
  .obj (match headers with
        | some h => [("headers", h)]
        | none => [])

/-- The `Authorization` header a request config contributes to the outgoing
HTTP request: the string value at key `Authorization` of the config's
`headers` object. -/
def clientAuthorization (config : Option JsValue) : Option String :=
  match config with
  | none => none
  | some c =>
    match c.get? "headers" with
    | some hs =>
      match hs.get? "Authorization" with
      | some (.str a) => some a
      | _ => none
    | none => none

/-- The downstream user-SDK operations `routeToUserService` can invoke; each
carries exactly the arguments the gateway passes it, with `config` the
per-call config built from the authorization header where the source passes
one (the `/auth/validate` branch invokes nothing and is represented
separately, and bodies are opaque). -/
inductive UserSdkCall where
  | getUserByEmail (email : String) (config : Option JsValue)
  | getAllUsers (config : Option JsValue)
  | getUserById (id : String) (config : Option JsValue)
  | login
  | refreshToken
  | createUser
  | updateUser (id : String)
  | deleteUser (id : String)
  deriving Repr

/-- The request config each `UserSdkService` method passes to the
`HttpClient` call it makes: the three GET data methods wrap their `headers?`
parameter once more as `{ headers }`; the remaining methods pass no config at
all. -/
def UserSdkCall.requestConfig : UserSdkCall → Option JsValue
  | .getUserByEmail _ config => some (objWithHeaders config)
  | .getAllUsers config => some (objWithHeaders config)
  | .getUserById _ config => some (objWithHeaders config)
  | .login => none
  | .refreshToken => none
  | .createUser => none
  | .updateUser _ => none
  | .deleteUser _ => none

/-- `routeToUserService` (app.module.ts lines 100-159): dispatch on method and
path suffix. The gateway's config (built from `headers?.authorization`) is
handed to the SDK only where the source passes it. `.ok none` is the
locally-answered `/auth/validate` branch; `.error` is the thrown
`Method not allowed`. -/
def routeToUserService (method path : String) (authHeader : Option String) :
    Except String (Option UserSdkCall) :=
  if method = "GET" then
    if path = "/auth/validate" then .ok none
    else if strStartsWith path "/email/" then
      .ok (some (.getUserByEmail (replaceFirst path "/email/") (gatewayConfig authHeader)))
    else if path = "/" then .ok (some (.getAllUsers (gatewayConfig authHeader)))
    else .ok (some (.getUserById (replaceFirst path "/") (gatewayConfig authHeader)))
  else if method = "POST" then
    if path = "/auth/login" then .ok (some .login)
    else if path = "/auth/refresh" then .ok (some .refreshToken)
    else .ok (some .createUser)
  else if method = "PATCH" then .ok (some (.updateUser (replaceFirst path "/")))
  else if method = "DELETE" then .ok (some (.deleteUser (replaceFirst path "/")))
  else .error "Method not allowed"

/-- The downstream lead-SDK operations `routeToLeadService` can invoke. -/
inductive LeadSdkCall where
  | getLeadsByUserId (userId : String)
  | getAllLeads
  | getLeadById (id : String)
  | createLead
  | assignLeadCall (id : String)
  | updateLeadStatusCall (id : String)
  | updateLeadCall (id : String)
  | deleteLead (id : String)
  deriving Repr, DecidableEq

/-- The request config a lead-SDK call hands to the `HttpClient`: none of the
`LeadSdkService` methods (`lead-sdk.service.ts`) accepts or passes one. -/
def LeadSdkCall.requestConfig : LeadSdkCall → Option JsValue
  | _ => none

/-- `routeToLeadService` (app.module.ts lines 161-214): dispatch on method and
path suffix. The function signature has no headers parameter at all. -/
def routeToLeadService (method path : String) : Except String LeadSdkCall :=
  if method = "GET" then
    if strStartsWith path "/user/" then .ok (.getLeadsByUserId (replaceFirst path "/user/"))
    else if path = "/" then .ok .getAllLeads
    else .ok (.getLeadById (replaceFirst path "/"))
  else if method = "POST" then .ok .createLead
  else if method = "PATCH" then
    if strIncludes path "/assign" then
      .ok (.assignLeadCall (replaceFirst (replaceFirst path "/assign") "/"))
    else if strIncludes path "/status" then
      .ok (.updateLeadStatusCall (replaceFirst (replaceFirst path "/status") "/"))
    else .ok (.updateLeadCall (replaceFirst path "/"))
  else if method = "DELETE" then .ok (.deleteLead (replaceFirst path "/"))
  else .error "Method not allowed"

/-- `routeLeadService` (gateway.controller.ts lines 33-38): the controller
forwards the method, the url with the leading `/leads` removed, and the body —
and does not pass the request headers on. -/
def routeLeadService (method url : String) : Except String LeadSdkCall :=
  routeToLeadService method (replaceFirst url "/leads")

/-- A config the gateway builds and then wraps through the SDK never yields an
`Authorization` header on the downstream request: the gateway's object is
nested under a second `headers` key, so the lookup finds `headers`, not
`Authorization`. -/
theorem clientAuthorization_wrapped_gatewayConfig (authHeader : Option String) :
    clientAuthorization (some (objWithHeaders (gatewayConfig authHeader))) = none := by
  cases authHeader with
  | none => rfl
  | some a =>
    simp only [gatewayConfig]
    split_ifs <;> rfl

/-- C10 counterexample: a gateway request whose bearer credential is
"Bearer tok" on the user-service get-by-email route is routed with the
gateway's config — an object whose `headers` field holds the `Authorization`
entry — but the SDK method wraps that whole config once more under a second
`headers` key, so the config handed to the Resilient Client carries no
`Authorization` header; on a lead-service route the headers are not even
passed to the router. -/
theorem c10_counterexample :
    routeToUserService "GET" "/email/a@b.com" (some "Bearer tok") =
      .ok (some (.getUserByEmail "a@b.com"
        (some (.obj [("headers", .obj [("Authorization", .str "Bearer tok")])])))) ∧
    (UserSdkCall.getUserByEmail "a@b.com"
        (some (.obj [("headers", .obj [("Authorization", .str "Bearer tok")])]))).requestConfig =
      some (.obj [("headers",
        .obj [("headers", .obj [("Authorization", .str "Bearer tok")])])]) ∧
    clientAuthorization
      (UserSdkCall.getUserByEmail "a@b.com"
        (some (.obj [("headers", .obj [("Authorization", .str "Bearer tok")])]))).requestConfig =
      none ∧
    routeLeadService "GET" "/leads/" = .ok .getAllLeads ∧
    LeadSdkCall.requestConfig .getAllLeads = none :=
  ⟨rfl, rfl, rfl, rfl, rfl⟩

/-- C10 (amended): no routed downstream call carries the caller's bearer
credential as an `Authorization` header of its Resilient Client request: the
lead routes never receive the request headers, the user-service non-GET
branches pass no config, and on the user-service GET branches the SDK wraps
the gateway's config — whose `headers` field holds the `Authorization` entry —
once more under a second `headers` key, burying the credential one level too
deep for the HTTP client to see it. -/
theorem c10_auth_forwarding (method path url : String) (auth : Option String) :
    (∀ c, routeToUserService method path auth = .ok (some c) →
      clientAuthorization c.requestConfig = none) ∧
    (∀ c, routeLeadService method url = .ok c →
      clientAuthorization (LeadSdkCall.requestConfig c) = none) := by
  constructor
  · intro c hcall
    unfold routeToUserService at hcall
    split_ifs at hcall <;>
      simp at hcall <;>
      subst hcall <;>
      first
        | rfl
        | exact clientAuthorization_wrapped_gatewayConfig auth
  · intro c hcall
    cases c <;> rfl

/-- C10 amended-claim witness: the get-by-email route, reached with the
bearer header "Bearer tok", yields a downstream call without an
`Authorization` header. -/
theorem c10_auth_forwarding_witness :
    clientAuthorization
      (UserSdkCall.getUserByEmail "a@b.com"
        (some (.obj [("headers", .obj [("Authorization", .str "Bearer tok")])]))).requestConfig =
      none :=
  (c10_auth_forwarding "GET" "/email/a@b.com" "/leads/" (some "Bearer tok")).1
    (.getUserByEmail "a@b.com"
      (some (.obj [("headers", .obj [("Authorization", .str "Bearer tok")])]))) rfl

end MiniCRM
